import Mathlib

/-!
# Verification of the attio-mcp-benchmark support scripts

Shallow embedding of the two scripts of the repository:

* `scripts/count_tokens.py` — the token accounting reporter: directory scan,
  record/field heuristic, comparison table ratio, CSV export, failure policy.
* `scripts/seed_workspace.py` — the workspace seeder: scenario-coverage
  validation, `api_call` status handling, and the phase structure of `main`.

Pure computations are translated as Lean functions; the effectful `main`
bodies are translated as trace-producing functions over explicit inputs
(file tree, network oracle).  External libraries (the `tiktoken` encoder,
`json.loads`, the HTTP client) appear as oracle inputs, never as stubs of
the repository's own logic.
-/

/-! ## JSON values

Values as produced by `json.loads`: objects are association lists whose keys
are distinct (the parser collapses duplicate keys), so the Python
`len(dict)` is the list length. -/

inductive Json where
  | null : Json
  | bool (b : Bool) : Json
  | num (q : ℚ) : Json
  | str (s : String) : Json
  | arr (elems : List Json) : Json
  | obj (members : List (String × Json)) : Json

/-- The Python exception classes that can arise around the per-file scan of
`count_tokens.main`.  `jsonDecodeError`, `indexError` and `typeError` are the
three classes named in the `except` clause at line 70; the remaining
constructors stand for exception classes that are *not* caught there. -/
inductive PyExc where
  | jsonDecodeError : PyExc
  | indexError : PyExc
  | typeError : PyExc
  | keyError : PyExc
  | valueError : PyExc
  | otherExc : PyExc
deriving DecidableEq

/-- The classes caught by `except (json.JSONDecodeError, IndexError, TypeError)`
(`count_tokens.py` line 70). -/
def caughtByScan : PyExc → Bool
  | .jsonDecodeError => true
  | .indexError => true
  | .typeError => true
  | _ => false

/-- Python `len` applied to a parsed JSON value: defined for strings
(code-point count), sequences and mappings; raises `TypeError` otherwise
(numbers, booleans, `None`). -/
def pyLen : Json → Except PyExc Nat
  | .str s => .ok s.length
  | .arr l => .ok l.length
  | .obj kvs => .ok kvs.length
  | _ => .error .typeError

/-- Python `d[k]` / `k in d` on a parsed JSON object. -/
def lookupMember (kvs : List (String × Json)) (k : String) : Option Json :=
  match kvs.find? (fun m => m.1 == k) with
  | some m => some m.2
  | none => none

/-- The body of the `try` block of `count_tokens.main` lines 56-69, with the
preceding `json.loads` modelled by the `Option Json` argument (`none` is a
parse failure raising `json.JSONDecodeError`).

* `data` a list: `records = len(data)`, `fields = len(data[0]) if data else 0`
  (the `len` of a scalar first element raises `TypeError`);
* `data` a dict with a `"data"` key: `records = len(data["data"])` if that
  value is a list else `1`; `fields = len(data["data"][0])` if it is a
  non-empty list else `0`;
* `data` a plain dict: `records, fields = 1, len(data)`;
* anything else: `records, fields = 0, 0`. -/
def heuristicBody : Option Json → Except PyExc (Nat × Nat)
  | none => .error .jsonDecodeError
  | some (.arr []) => .ok (0, 0)
  | some (.arr (e :: es)) =>
    (match pyLen e with
     | .ok f => .ok ((e :: es).length, f)
     | .error ex => .error ex)
  | some (.obj kvs) =>
    (match lookupMember kvs "data" with
     | some (.arr []) => .ok (0, 0)
     | some (.arr (e :: es)) =>
       (match pyLen e with
        | .ok f => .ok ((e :: es).length, f)
        | .error ex => .error ex)
     | some _ => .ok (1, 0)
     | none => .ok (1, kvs.length))
  | some _ => .ok (0, 0)

/-- The record/field computation of `count_tokens.main` lines 56-72: the
`try` body with any `JSONDecodeError`/`IndexError`/`TypeError` absorbed as
`records = 0, fields = 0`. -/
def recordsFields (j : Option Json) : Nat × Nat :=
  match heuristicBody j with
  | .ok p => p
  | .error _ => (0, 0)

/-! ## The heuristic as the (amended) spec words it

A tagged-variant classification (sequence / mapping-with-data-key / plain
mapping / other) followed by an independent treatment of each case, as
suggested by the spec's design notes. -/

/-- Classification of a parsed JSON document into the spec's four cases. -/
inductive JsonShape where
  | seq (elems : List Json) : JsonShape
  | mappingWithData (v : Json) (size : Nat) : JsonShape
  | plainMapping (size : Nat) : JsonShape
  | otherShape : JsonShape

/-- Tagged-variant dispatch on the shape of a parsed JSON document. -/
def classify : Json → JsonShape
  | .arr l => .seq l
  | .obj kvs =>
    (match lookupMember kvs "data" with
     | some v => .mappingWithData v kvs.length
     | none => .plainMapping kvs.length)
  | _ => .otherShape

/-- Python length of a JSON value when it has one (strings, sequences,
mappings); `none` for numbers, booleans and `null`. -/
def pyLenOpt : Json → Option Nat
  | .str s => some s.length
  | .arr l => some l.length
  | .obj kvs => some kvs.length
  | _ => none

/-- The record/field heuristic in the amended spec's words: a sequence gives
`records` = its length and `fields` = the length of its first element, except
that when the first element carries no length (number, boolean, null) the
failed lookup is absorbed and both counts degrade to `0`; a mapping with a
`"data"` key gives `records` = the length of the value under `"data"` when it
is a sequence (else `1`) and `fields` = the length of that sequence's first
element when present (else `0`, with the same absorption); a plain mapping
gives `(1, its size)`; anything else, including a parse failure, gives
`(0, 0)`. -/
def specRecordsFields : Option Json → Nat × Nat
  | none => (0, 0)
  | some j =>
    match classify j with
    | .seq [] => (0, 0)
    | .seq (e :: es) =>
      (match pyLenOpt e with
       | some f => ((e :: es).length, f)
       | none => (0, 0))
    | .mappingWithData v _ =>
      (match v with
       | .arr [] => (0, 0)
       | .arr (e :: es) =>
         (match pyLenOpt e with
          | some f => ((e :: es).length, f)
          | none => (0, 0))
       | _ => (1, 0))
    | .plainMapping sz => (1, sz)
    | .otherShape => (0, 0)

/-- The spec's first worked example: `[{"a":1,"b":2},{"a":3,"b":4}]`. -/
def exListOfMaps : Json :=
  Json.arr [Json.obj [("a", Json.num 1), ("b", Json.num 2)],
            Json.obj [("a", Json.num 3), ("b", Json.num 4)]]

/-- The spec's second worked example: `{"data":[{"x":1}]}`. -/
def exDataKey : Json :=
  Json.obj [("data", Json.arr [Json.obj [("x", Json.num 1)]])]

/-- The spec's third worked example: `{"x":1,"y":2}`. -/
def exPlainMap : Json :=
  Json.obj [("x", Json.num 1), ("y", Json.num 2)]

/-- The counterexample input: the JSON text `[1]`, a sequence of length 1
whose first element is a number. -/
def exSeqScalar : Json := Json.arr [Json.num 1]

/-! ## String utilities

Python string primitives used by the scripts, modelled over code-point
lists so that everything evaluates in the kernel. -/

/-- `isPrefixChars p l` : `p` is a prefix of `l`. -/
def isPrefixChars : List Char → List Char → Bool
  | [], _ => true
  | _ :: _, [] => false
  | a :: as, b :: bs => a == b && isPrefixChars as bs

/-- `l` ends with the given suffix (Python `str.endswith`, also the meaning of
the glob pattern `*.json`, whose `*` matches any sequence of characters). -/
def endsWithChars (l suffix : List Char) : Bool :=
  isPrefixChars suffix.reverse l.reverse

/-- String form of `endsWithChars`. -/
def endsWithStr (s suffix : String) : Bool :=
  endsWithChars s.toList suffix.toList

/-- `hasSubstrChars hay needle` : `needle` occurs inside `hay`
(Python `needle in hay`). -/
def hasSubstrChars : List Char → List Char → Bool
  | [], needle => needle.isEmpty
  | hay@(_ :: t), needle => isPrefixChars needle hay || hasSubstrChars t needle

/-- Python `needle in hay` on strings. -/
def strContainsSub (hay needle : String) : Bool :=
  hasSubstrChars hay.toList needle.toList

/-- Python `<` on strings: lexicographic comparison of code points. -/
def charListLt : List Char → List Char → Bool
  | [], [] => false
  | [], _ :: _ => true
  | _ :: _, [] => false
  | a :: as, b :: bs =>
    if a.toNat < b.toNat then true
    else if b.toNat < a.toNat then false
    else charListLt as bs

/-- Python `a < b` on strings. -/
def pyStrLt (a b : String) : Bool := charListLt a.toList b.toList

/-- The (non-strict) key order used to model Python's stable ascending
`sorted`: `a` may stay before `b` unless `b < a`. -/
def nameLe (a b : String) : Bool := !(pyStrLt b a)

/-- Insert into a sorted list, keeping earlier elements first on ties
(stability of Python's sort). -/
def insertSorted {α : Type} (le : α → α → Bool) (x : α) : List α → List α
  | [] => [x]
  | y :: ys => if le x y then x :: y :: ys else y :: insertSorted le x ys

/-- Stable insertion sort, modelling Python `sorted`. -/
def sortByKey {α : Type} (le : α → α → Bool) : List α → List α
  | [] => []
  | x :: xs => insertSorted le x (sortByKey le xs)

/-- `pathlib.Path.stem`: the file name without its suffix, where the suffix
starts at the last `.` provided that dot is neither the first nor the last
character of the name. -/
def lastDotPos (cs : List Char) : Option Nat :=
  ((List.range cs.length).filter (fun i => cs.getD i ' ' == '.')).getLast?

/-- Python `Path(name).stem`. -/
def pyStem (name : String) : String :=
  let cs := name.toList
  match lastDotPos cs with
  | some i => if 0 < i ∧ i + 1 < cs.length then String.mk (cs.take i) else name
  | none => name

/-! ## Decimal rendering and parsing

Python `str(int)` for the nonnegative integers written into the CSV, and the
parse used to read them back. -/

/-- Little-endian decimal digits of `n`. -/
def digitsLE (n : Nat) : List Nat :=
  if _h : n < 10 then [n]
  else (n % 10) :: digitsLE (n / 10)
decreasing_by exact Nat.div_lt_self (by omega) (by omega)

/-- The character of a decimal digit. -/
def digitChar (d : Nat) : Char := Char.ofNat (48 + d)

/-- Python `str(n)` for a nonnegative integer. -/
def natRepr (n : Nat) : String :=
  String.mk ((digitsLE n).reverse.map digitChar)

/-- Numeric value of a decimal digit character. -/
def digitVal (c : Char) : Nat := c.toNat - 48

/-- Decimal digit test. -/
def isDigitCh (c : Char) : Bool := 48 ≤ c.toNat && c.toNat ≤ 57

/-- Parse a decimal numeral (the int parse applied when reading the CSV
back). -/
def parseNat (s : String) : Option Nat :=
  let cs := s.toList
  if !cs.isEmpty && cs.all isDigitCh then
    some (cs.foldl (fun a c => 10 * a + digitVal c) 0)
  else none

/-! ## The token accounting reporter (`count_tokens.py`)

One `ScenarioResult` per scanned response file, a per-file scan over the
directory tree, the comparison ratio, the CSV export, and the trace of
`main`.  The tokenizer is an oracle `tok : String → Nat` (a deterministic
function of the file text), and `json.loads` is the `parsed` oracle field of
each file entry. -/

/-- One row of the report, as appended by `count_tokens.main` lines 74-82. -/
structure ScenarioResult where
  scenario : String
  toolkit : String
  tokens : Nat
  bytes : Nat
  records : Nat
  fields_per_record : Nat
  file : String
deriving DecidableEq

/-- A response file inside a toolkit directory: its name, its full text, and
the outcome of `json.loads` on that text (`none` = parse failure); the JSON
parser itself is external to the repository. -/
structure FileEntry where
  name : String
  content : String
  parsed : Option Json

/-- An immediate child of the raw-data directory. -/
structure DirEntry where
  name : String
  isDir : Bool
  files : List FileEntry

/-- The files selected by `toolkit_dir.glob("*.json")`. -/
def jsonNamed (f : FileEntry) : Bool := endsWithStr f.name ".json"

/-- The `ScenarioResult` built for one response file
(`count_tokens.main` lines 48-82).  Both candidate root directories are
named `raw`, so the path recorded relative to the root's parent is
`raw/<toolkit>/<name>`. -/
def fileRow (tok : String → Nat) (toolkit : String) (f : FileEntry) : ScenarioResult :=
  { scenario := pyStem f.name
    toolkit := toolkit
    tokens := tok f.content
    bytes := f.content.utf8ByteSize
    records := (recordsFields f.parsed).1
    fields_per_record := (recordsFields f.parsed).2
    file := "raw/" ++ toolkit ++ "/" ++ f.name }

/-- Sort order of files inside a toolkit directory (`sorted(...glob(...))`). -/
def fileLe (a b : FileEntry) : Bool := nameLe a.name b.name

/-- Sort order of the children of the root (`sorted(data_dir.iterdir())`). -/
def dirLe (a b : DirEntry) : Bool := nameLe a.name b.name

/-- The rows contributed by one child of the root: nothing when the child is
not a directory or is the reserved `schemas` directory, else one row per
`*.json` file in sorted order (`count_tokens.main` lines 43-82). -/
def dirRows (tok : String → Nat) (d : DirEntry) : List ScenarioResult :=
  if d.isDir && d.name != "schemas" then
    (sortByKey fileLe (d.files.filter jsonNamed)).map (fileRow tok d.name)
  else []

/-- The full scan: toolkit directories in sorted order, each contributing its
rows. -/
def scanTree (tok : String → Nat) (t : List DirEntry) : List ScenarioResult :=
  ((sortByKey dirLe t).map (dirRows tok)).flatten

/-! ### Comparison summary -/

/-- `sorted(set(r["toolkit"] for r in results))`. -/
def sortedToolkits (results : List ScenarioResult) : List String :=
  sortByKey nameLe (results.map (·.toolkit)).dedup

/-- The rows matching one scenario/toolkit pair
(`count_tokens.main` line 110). -/
def matchesFor (results : List ScenarioResult) (scenario toolkit : String) :
    List ScenarioResult :=
  results.filter (fun r => r.scenario == scenario && r.toolkit == toolkit)

/-- The `token_counts` dict built for one comparison row
(`count_tokens.main` lines 108-113): one entry per toolkit with at least one
matching row, holding the first match's token count. -/
def tokenCounts (results : List ScenarioResult) (scenario : String) :
    List (String × Nat) :=
  (sortedToolkits results).filterMap (fun t =>
    match matchesFor results scenario t with
    | [] => none
    | m :: _ => some (t, m.tokens))

/-- `min(token_counts.values()), max(token_counts.values())` of a nonempty
entry list. -/
def minMaxTokens : List (String × Nat) → Option (Nat × Nat)
  | [] => none
  | p :: rest => some (rest.foldl (fun mm q => (min mm.1 q.2, max mm.2 q.2)) (p.2, p.2))

/-- The ratio cell of the comparison summary (`count_tokens.main` lines
118-123): printed only when the `token_counts` dict has at least two entries
and its minimum is positive, and then equal to `max/min`. -/
def ratioCell (results : List ScenarioResult) (scenario : String) : Option ℚ :=
  let tc := tokenCounts results scenario
  if 2 ≤ tc.length then
    match minMaxTokens tc with
    | some (mn, mx) => if 0 < mn then some ((mx : ℚ) / (mn : ℚ)) else none
    | none => none
  else none

/-- The distinct toolkits that report a scenario (spec-side description used
to state when the ratio is shown). -/
def reportingToolkits (results : List ScenarioResult) (scenario : String) :
    List String :=
  ((results.filter (fun r => r.scenario == scenario)).map (·.toolkit)).dedup

/-! ### CSV export -/

/-- The fixed CSV field order (`count_tokens.main` line 129). -/
def csvHeader : List String :=
  ["scenario", "toolkit", "tokens", "bytes", "records", "fields_per_record", "file"]

/-- The CSV row written for one result (`csv.DictWriter.writerows`, with
Python's `str` applied to the integer fields). -/
def csvRow (r : ScenarioResult) : List String :=
  [r.scenario, r.toolkit, natRepr r.tokens, natRepr r.bytes, natRepr r.records,
   natRepr r.fields_per_record, r.file]

/-- The full CSV content: header then one row per result, in order
(`count_tokens.main` lines 126-131). -/
def writeCsv (results : List ScenarioResult) : List (List String) :=
  csvHeader :: results.map csvRow

/-- Writing with mode `"w"` truncates: the file content after the write is a
function of the results alone, whatever was at the destination path before. -/
def writeCsvFile (_previousContent : List (List String))
    (results : List ScenarioResult) : List (List String) :=
  writeCsv results

/-- Reading one CSV data row back into a `ScenarioResult`. -/
def parseCsvRow (row : List String) : Option ScenarioResult :=
  match row with
  | [sc, tk, t, b, rc, f, fp] =>
    (match parseNat t, parseNat b, parseNat rc, parseNat f with
     | some t', some b', some rc', some f' => some ⟨sc, tk, t', b', rc', f', fp⟩
     | _, _, _, _ => none)
  | _ => none

/-! ### The trace of `count_tokens.main` -/

/-- Observable steps of the reporter. -/
inductive RepEvent where
  | scanFile (path : String) : RepEvent
  | printDiagnostic : RepEvent
  | printPerFileTable : RepEvent
  | printComparison : RepEvent
  | csvWrite : RepEvent
deriving DecidableEq

/-- The control flow of `count_tokens.main` (plus the module-level
`tiktoken` guard of lines 16-20): missing tokenizer exits 1; neither root directory
existing exits 1 with a diagnostic before any file is read; an empty result
set exits 1 after the scan but before any table or CSV output; otherwise the
tables are printed, the CSV written, and the process exits 0.  `tree` is the
content of whichever root directory was selected. -/
def reporterMain (tiktokenOk dataRawExists rawExists : Bool)
    (tok : String → Nat) (tree : List DirEntry) : List RepEvent × Nat :=
  if !tiktokenOk then ([.printDiagnostic], 1)
  else if !dataRawExists && !rawExists then ([.printDiagnostic], 1)
  else
    let results := scanTree tok tree
    let evs := results.map (fun r => RepEvent.scanFile r.file)
    if results.isEmpty then (evs ++ [.printDiagnostic], 1)
    else (evs ++ [.printPerFileTable, .printComparison, .csvWrite], 0)

/-! ## The workspace seeder (`seed_workspace.py`)

Static data model (the fields the validator and the phases inspect), the
scenario validator, `api_call`'s status handling, and the phase structure of
`main` as a trace over a network oracle `net : Nat → Nat × Bool` giving the
HTTP status and a "response body has a `data` key" flag for the n-th call. -/

/-- The company fields inspected by `validate_scenarios` and the creation
phases. -/
structure SeedCompany where
  name : String
  industry : String
  employee_count : Nat
  hasExec2 : Bool
deriving DecidableEq

/-- The deal fields inspected by `validate_scenarios`. -/
structure SeedDeal where
  name : String
  stage : String
  value : Nat
  close_date : String
deriving DecidableEq

/-- The eight scenario-coverage checks of `validate_scenarios`
(`seed_workspace.py` lines 337-346), in source order; the eighth entry is the
literal `True` of line 345. -/
def scenarioChecks (cs : List SeedCompany) (ds : List SeedDeal) : List Bool :=
  [decide (25 ≤ cs.length),
   decide (20 ≤ (ds.filter (fun d => d.stage == "Nurture")).length),
   decide (10 ≤ (ds.filter (fun d => decide (50000 < d.value))).length),
   decide (8 ≤ (cs.filter (fun c => strContainsSub c.name "Tech")).length),
   decide (10 ≤ (cs.filter (fun c => c.industry == "Technology")).length),
   decide (15 ≤ (ds.filter (fun d => pyStrLt d.close_date "2026-03-01")).length),
   decide (5 ≤ (cs.filter (fun c =>
     c.industry == "Technology" && decide (100 < c.employee_count))).length),
   true]

/-- `validate_scenarios` (lines 327-352): before the checks it evaluates
`max(DEALS, key=...)`, which raises `ValueError` on an empty deal list
(modelled as `none`); otherwise it returns the conjunction of the eight
checks. -/
def validateScenarios (cs : List SeedCompany) (ds : List SeedDeal) : Option Bool :=
  match ds with
  | [] => none
  | _ :: _ => some ((scenarioChecks cs ds).all id)

/-- Abstraction of `api_call`'s return value: the parsed body on 200/201
(with a flag recording whether it has a `"data"` key), the
`{"conflict": True, "status": 409, "detail": ...}` dict on 409 (which has no
`"data"` key), and `None` (after logging) on anything else, including
request exceptions. -/
inductive ApiCallRet where
  | body (hasDataKey : Bool) : ApiCallRet
  | conflict : ApiCallRet
  | failed : ApiCallRet
deriving DecidableEq

/-- The status-code dispatch of `api_call` (`seed_workspace.py` lines
314-321). -/
def apiCall (status : Nat) (hasDataKey : Bool) : ApiCallRet :=
  if status == 200 || status == 201 then .body hasDataKey
  else if status == 409 then .conflict
  else .failed

/-- Outcome printed for one attribute creation
(`create_custom_attributes` lines 380-385): `result and not
result.get("conflict")` → created, `result and result.get("conflict")` →
already exists (the 409 no-op), else failed. -/
inductive AttrOutcome where
  | createdAttr : AttrOutcome
  | alreadyExists : AttrOutcome
  | failedAttr : AttrOutcome
deriving DecidableEq

/-- The attribute-creation branching on `api_call`'s return value. -/
def attrOutcome : ApiCallRet → AttrOutcome
  | .body _ => .createdAttr
  | .conflict => .alreadyExists
  | .failed => .failedAttr

/-- Outcome of one record creation (`create_companies` lines 457-463, also
`create_people` and `create_deals`): the test is `if result and "data" in
result`. -/
inductive RecOutcome where
  | createdRec : RecOutcome
  | failedRec : RecOutcome
deriving DecidableEq

/-- The record-creation branching on `api_call`'s return value: only a body
carrying a `"data"` key counts as created; the 409 conflict dict does not. -/
def recordOutcome : ApiCallRet → RecOutcome
  | .body true => .createdRec
  | _ => .failedRec

/-- Observable steps of the seeder. -/
inductive SeedEvent where
  | api (method : String) (path : String) : SeedEvent
  | writeMapping : SeedEvent
deriving DecidableEq

/-- Trace state: the events so far and the number of API calls made. -/
structure SimSt where
  evs : List SeedEvent
  k : Nat
deriving DecidableEq

/-- Perform one API call against the network oracle. -/
def netCall (net : Nat → Nat × Bool) (method path : String) (s : SimSt) :
    ApiCallRet × SimSt :=
  (apiCall (net s.k).1 (net s.k).2, ⟨s.evs ++ [.api method path], s.k + 1⟩)

/-- The 15 company custom attribute slugs (`seed_workspace.py` lines
91-122). -/
def COMPANY_CUSTOM_ATTRIBUTES : List String :=
  ["industry", "employee_count", "annual_revenue", "founded_year",
   "headquarters", "linkedin_url", "tech_stack", "lead_source", "icp_score",
   "last_contacted", "account_tier", "funding_stage", "contract_status",
   "primary_use_case", "renewal_date"]

/-- The 11 deal custom attribute slugs (`seed_workspace.py` lines
124-147). -/
def DEAL_CUSTOM_ATTRIBUTES : List String :=
  ["deal_lead_source", "next_step", "champion", "competitor", "use_case",
   "contract_length_months", "security_review_status", "probability",
   "loss_reason", "onboarding_date", "close_date"]

/-- POST one attribute definition per list entry; failures and conflicts are
printed and the loop continues. -/
def postAttributes (net : Nat → Nat × Bool) (path : String) :
    List String → SimSt → SimSt
  | [], s => s
  | _ :: attrs, s => postAttributes net path attrs (netCall net "POST" path s).2

/-- Phase 1 (`create_custom_attributes`): company attributes, then deal
attributes. -/
def createCustomAttributes (net : Nat → Nat × Bool) (s : SimSt) : SimSt :=
  postAttributes net "/objects/deals/attributes" DEAL_CUSTOM_ATTRIBUTES
    (postAttributes net "/objects/companies/attributes" COMPANY_CUSTOM_ATTRIBUTES s)

/-- Phase 2 (`create_companies`): one upsert PUT per company; the returned
booleans record which entries of `company_records` are non-`None`. -/
def createCompanies (net : Nat → Nat × Bool) :
    List SeedCompany → SimSt → List Bool × SimSt
  | [], s => ([], s)
  | _ :: cs, s =>
    let c1 := netCall net "PUT" "/objects/companies/records?matching_attribute=domains" s
    let rest := createCompanies net cs c1.2
    ((recordOutcome c1.1 == .createdRec) :: rest.1, rest.2)

/-- Phase 3 (`create_people`): for each company whose record was created, a
PUT for the CEO and, when present, one for the second executive; companies
whose creation failed are skipped. -/
def createPeople (net : Nat → Nat × Bool) :
    List (SeedCompany × Bool) → SimSt → SimSt
  | [], s => s
  | (c, ok) :: rest, s =>
    if ok then
      let s1 := (netCall net "PUT"
        "/objects/people/records?matching_attribute=email_addresses" s).2
      let s2 := if c.hasExec2 then
          (netCall net "PUT"
            "/objects/people/records?matching_attribute=email_addresses" s1).2
        else s1
      createPeople net rest s2
    else createPeople net rest s

/-- Phase 4 (`create_deals`): one POST per deal, followed by a stage PATCH
when the creation succeeded. -/
def createDeals (net : Nat → Nat × Bool) : List SeedDeal → SimSt → SimSt
  | [], s => s
  | _ :: ds, s =>
    let c1 := netCall net "POST" "/objects/deals/records" s
    let s2 := if recordOutcome c1.1 == .createdRec then
        (netCall net "PATCH" "/objects/deals/records/:record_id" c1.2).2
      else c1.2
    createDeals net ds s2

/-- The control flow of `seed_workspace.main` (lines 591-659) over its
dataset: validate first (`sys.exit(1)` on failure, crash on the empty-deals
`ValueError`), then the `/self` connectivity check (`sys.exit(1)` when
`api_call` returned `None`), then the four phases, then the mapping file. -/
def seederMain (cs : List SeedCompany) (ds : List SeedDeal)
    (net : Nat → Nat × Bool) : List SeedEvent × Nat :=
  match validateScenarios cs ds with
  | none => ([], 1)
  | some false => ([], 1)
  | some true =>
    let c1 := netCall net "GET" "/self" ⟨[], 0⟩
    if c1.1 == .failed then (c1.2.evs, 1)
    else
      let s2 := createCustomAttributes net c1.2
      let r3 := createCompanies net cs s2
      let s4 := createPeople net (cs.zip r3.1) r3.2
      let s5 := createDeals net ds s4
      (s5.evs ++ [.writeMapping], 0)

/-! ## Spec-side auxiliary definitions and concrete examples -/

/-- Empty the file list of a directory entry named `schemas`, leaving every
other entry untouched (used to state that the reserved directory's contents
are irrelevant). -/
def clearSchemas (d : DirEntry) : DirEntry :=
  if d.name == "schemas" then { d with files := [] } else d

/-- Remove the files whose names do not end in `.json` (used to state that
only `*.json` files are ever scanned). -/
def dropNonJsonFiles (d : DirEntry) : DirEntry :=
  { d with files := d.files.filter jsonNamed }

/-- A single deal, for the shrunk-dataset witness. -/
def dealEx : SeedDeal :=
  { name := "Example - Deal", stage := "Nurture", value := 60000,
    close_date := "2026-01-01" }

/-- Two toolkits reporting the same scenario with token counts 100 and 400
(the spec's ratio example). -/
def exPairResults : List ScenarioResult :=
  [{ scenario := "scenario-a", toolkit := "arcade", tokens := 100, bytes := 0,
     records := 0, fields_per_record := 0, file := "raw/arcade/scenario-a.json" },
   { scenario := "scenario-a", toolkit := "composio", tokens := 400, bytes := 0,
     records := 0, fields_per_record := 0, file := "raw/composio/scenario-a.json" }]

/-- A scenario reported by a single toolkit. -/
def exSingleResult : ScenarioResult :=
  { scenario := "scenario-a", toolkit := "arcade", tokens := 100, bytes := 0,
    records := 0, fields_per_record := 0, file := "raw/arcade/scenario-a.json" }

/-- Two toolkits where the minimum token count is zero. -/
def exZeroResults : List ScenarioResult :=
  [{ scenario := "scenario-a", toolkit := "arcade", tokens := 0, bytes := 0,
     records := 0, fields_per_record := 0, file := "raw/arcade/scenario-a.json" },
   { scenario := "scenario-a", toolkit := "composio", tokens := 400, bytes := 0,
     records := 0, fields_per_record := 0, file := "raw/composio/scenario-a.json" }]

/-! # Theorems -/

/-! ## The record/field heuristic (claims C1, C6) -/

/-- The exception-absorbing translation of the `try` block agrees with the
direct, classification-based statement of the heuristic. -/
theorem recordsFields_eq_spec : ∀ j, recordsFields j = specRecordsFields j := by
  intro j
  match j with
  | none => rfl
  | some Json.null => rfl
  | some (Json.bool b) => rfl
  | some (Json.num q) => rfl
  | some (Json.str s) => rfl
  | some (Json.arr []) => rfl
  | some (Json.arr (e :: es)) => cases e <;> rfl
  | some (Json.obj kvs) =>
    cases hl : lookupMember kvs "data" with
    | none => simp [recordsFields, heuristicBody, specRecordsFields, classify, hl]
    | some v =>
      cases v with
      | arr l =>
        cases l with
        | nil => simp [recordsFields, heuristicBody, specRecordsFields, classify, hl]
        | cons e es =>
          cases e <;>
            simp [recordsFields, heuristicBody, specRecordsFields, classify, hl,
              pyLen, pyLenOpt]
      | null => simp [recordsFields, heuristicBody, specRecordsFields, classify, hl]
      | bool b => simp [recordsFields, heuristicBody, specRecordsFields, classify, hl]
      | num q => simp [recordsFields, heuristicBody, specRecordsFields, classify, hl]
      | str s => simp [recordsFields, heuristicBody, specRecordsFields, classify, hl]
      | obj kvs2 => simp [recordsFields, heuristicBody, specRecordsFields, classify, hl]

/-- C1 (amended): for every parse outcome the scan's record/field heuristic
equals the classification-based heuristic `specRecordsFields` (sequence /
mapping-with-`data`-key / plain mapping / other, with a first element that
carries no Python length absorbed as `(0, 0)`), and the spec's three worked
examples evaluate as stated: `[{"a":1,"b":2},{"a":3,"b":4}]` gives
records 2 / fields 2, `{"data":[{"x":1}]}` gives 1 / 1, and `{"x":1,"y":2}`
gives 1 / 2. -/
theorem heuristic_matches_amended_spec :
    (∀ j, recordsFields j = specRecordsFields j) ∧
    recordsFields (some exListOfMaps) = (2, 2) ∧
    recordsFields (some exDataKey) = (1, 1) ∧
    recordsFields (some exPlainMap) = (1, 2) :=
  ⟨recordsFields_eq_spec, rfl, rfl, rfl⟩

/-- C1 counterexample: the JSON text `[1]` parses as a sequence of length 1,
so the claim's sequence clause demands record count 1; the code instead
absorbs the `len(1)` TypeError and yields records 0 / fields 0. -/
theorem heuristic_seq_of_scalars_cex :
    recordsFields (some exSeqScalar) = (0, 0) ∧
    ([Json.num 1] : List Json).length = 1 ∧
    (recordsFields (some exSeqScalar)).1 ≠ ([Json.num 1] : List Json).length := by
  refine ⟨rfl, rfl, ?_⟩
  intro h
  simp [recordsFields, heuristicBody, pyLen, exSeqScalar] at h

/-- The only exceptions the `try` body can raise are `json.JSONDecodeError`
(parse failure) and `TypeError` (`len` of a scalar). -/
theorem heuristicBody_error_classes :
    ∀ j e, heuristicBody j = .error e →
      e = PyExc.jsonDecodeError ∨ e = PyExc.typeError := by
  intro j e h
  match j with
  | none =>
    simp [heuristicBody] at h
    exact Or.inl h.symm
  | some Json.null => simp [heuristicBody] at h
  | some (Json.bool b) => simp [heuristicBody] at h
  | some (Json.num q) => simp [heuristicBody] at h
  | some (Json.str s) => simp [heuristicBody] at h
  | some (Json.arr []) => simp [heuristicBody] at h
  | some (Json.arr (e' :: es)) =>
    cases e' <;> simp [heuristicBody, pyLen] at h <;> exact Or.inr h.symm
  | some (Json.obj kvs) =>
    cases hl : lookupMember kvs "data" with
    | none => simp [heuristicBody, hl] at h
    | some v =>
      cases v with
      | arr l =>
        cases l with
        | nil => simp [heuristicBody, hl] at h
        | cons e' es =>
          cases e' <;> simp [heuristicBody, hl, pyLen] at h <;> exact Or.inr h.symm
      | null => simp [heuristicBody, hl] at h
      | bool b => simp [heuristicBody, hl] at h
      | num q => simp [heuristicBody, hl] at h
      | str s => simp [heuristicBody, hl] at h
      | obj kvs2 => simp [heuristicBody, hl] at h

/-- C6: the per-file scan returns normally on every input: every exception
the heuristic body can raise belongs to the caught classes
(`JSONDecodeError`/`IndexError`/`TypeError`), a raised exception degrades
that row to records 0 / fields 0, and a normal result is passed through
unchanged — nothing propagates past the scan boundary. -/
theorem scan_absorbs_failures :
    ∀ j : Option Json,
      (∀ e, heuristicBody j = .error e → caughtByScan e = true) ∧
      (∀ e, heuristicBody j = .error e → recordsFields j = (0, 0)) ∧
      (∀ p, heuristicBody j = .ok p → recordsFields j = p) := by
  intro j
  refine ⟨?_, ?_, ?_⟩
  · intro e h
    rcases heuristicBody_error_classes j e h with h' | h' <;> simp [h', caughtByScan]
  · intro e h
    simp [recordsFields, h]
  · intro p h
    simp [recordsFields, h]

/-- Witness for C6 at concrete inputs: unparseable text raises the caught
`JSONDecodeError` and degrades to `(0, 0)`; the parsed document
`{"x":1,"y":2}` passes through as `(1, 2)`. -/
theorem scan_absorbs_failures_witness :
    caughtByScan PyExc.jsonDecodeError = true ∧
    recordsFields none = (0, 0) ∧
    recordsFields (some exPlainMap) = (1, 2) :=
  ⟨(scan_absorbs_failures none).1 PyExc.jsonDecodeError rfl,
   (scan_absorbs_failures none).2.1 PyExc.jsonDecodeError rfl,
   (scan_absorbs_failures (some exPlainMap)).2.2 (1, 2) rfl⟩

/-! ## The seeder (claims C2, C3, C9) -/

/-- C9: the eighth entry of the validator's check list is the literal `True`,
and `validate_scenarios` succeeds (returns normally with `True`) exactly when
the first seven coverage thresholds hold: at least 25 companies, 20 Nurture
deals, 10 deals above $50K, 8 companies with "Tech" in the name, 10
Technology-industry companies, 15 deals closing before 2026-03-01, and 5
Technology companies with more than 100 employees. -/
theorem validateScenarios_iff_first_seven :
    ∀ cs ds,
      (scenarioChecks cs ds).getLast? = some true ∧
      (validateScenarios cs ds = some true ↔
        (25 ≤ cs.length ∧
         20 ≤ (ds.filter (fun d => d.stage == "Nurture")).length ∧
         10 ≤ (ds.filter (fun d => decide (50000 < d.value))).length ∧
         8 ≤ (cs.filter (fun c => strContainsSub c.name "Tech")).length ∧
         10 ≤ (cs.filter (fun c => c.industry == "Technology")).length ∧
         15 ≤ (ds.filter (fun d => pyStrLt d.close_date "2026-03-01")).length ∧
         5 ≤ (cs.filter (fun c =>
           c.industry == "Technology" && decide (100 < c.employee_count))).length)) := by
  intro cs ds
  refine ⟨rfl, ?_⟩
  cases ds with
  | nil =>
    constructor
    · intro h; simp [validateScenarios] at h
    · intro h
      have h2 := h.2.1
      simp at h2
  | cons d ds' =>
    simp [validateScenarios, scenarioChecks, and_assoc]

/-- C3: no API call is ever issued before validation passes.  When the
bundled dataset fails validation (a failed threshold, or the `ValueError`
raised by `max` on an empty deal list), the seeder exits non-zero having made
zero API calls; conversely any API event in the trace implies validation
returned `True`. -/
theorem seeder_validates_before_any_call :
    ∀ cs ds net,
      (validateScenarios cs ds ≠ some true → seederMain cs ds net = ([], 1)) ∧
      (∀ m p, SeedEvent.api m p ∈ (seederMain cs ds net).1 →
        validateScenarios cs ds = some true) := by
  intro cs ds net
  cases h : validateScenarios cs ds with
  | none =>
    refine ⟨fun _ => by simp [seederMain, h], fun m p hm => ?_⟩
    simp [seederMain, h] at hm
  | some b =>
    cases b with
    | false =>
      refine ⟨fun _ => by simp [seederMain, h], fun m p hm => ?_⟩
      simp [seederMain, h] at hm
    | true =>
      exact ⟨fun hne => absurd rfl hne, fun _ _ _ => rfl⟩

/-- Witness for C3: a dataset shrunk to no companies and a single deal fails
the thresholds, and the seeder run on it makes no API call and exits 1. -/
theorem seeder_validates_before_any_call_witness :
    validateScenarios [] [dealEx] ≠ some true ∧
    seederMain [] [dealEx] (fun _ => (200, true)) = ([], 1) :=
  ⟨by decide,
   (seeder_validates_before_any_call [] [dealEx] (fun _ => (200, true))).1 (by decide)⟩

/-- C2 counterexample: on an HTTP 409, `api_call` returns the conflict dict,
which has no `"data"` key; a record-creation call (companies, people, deals)
therefore records the item as FAILED — not as a successful no-op — while an
attribute-creation call does treat the same 409 as "already exists". -/
theorem record_creation_409_cex :
    recordOutcome (apiCall 409 true) = RecOutcome.failedRec ∧
    recordOutcome (apiCall 409 true) ≠ RecOutcome.createdRec ∧
    attrOutcome (apiCall 409 true) = AttrOutcome.alreadyExists := by
  decide

/-- One event is appended per attribute in the list, whatever the network
answers: no status aborts the attribute batch. -/
theorem postAttributes_evs_length :
    ∀ (net : Nat → Nat × Bool) (path : String) (attrs : List String) (s : SimSt),
      (postAttributes net path attrs s).evs.length = s.evs.length + attrs.length := by
  intro net path attrs
  induction attrs with
  | nil => intro s; rfl
  | cons a as ih =>
    intro s
    rw [postAttributes, ih]
    simp [netCall]
    omega

/-- One creation event is appended per company, whatever the network
answers: no status aborts the company batch, and one `company_records` entry
is produced per company. -/
theorem createCompanies_evs_length :
    ∀ (net : Nat → Nat × Bool) (cs : List SeedCompany) (s : SimSt),
      ((createCompanies net cs s).2.evs.length = s.evs.length + cs.length ∧
       (createCompanies net cs s).1.length = cs.length) := by
  intro net cs
  induction cs with
  | nil => intro s; exact ⟨rfl, rfl⟩
  | cons c cs' ih =>
    intro s
    have h1 := ih (netCall net
      "PUT" "/objects/companies/records?matching_attribute=domains" s).2
    refine ⟨?_, ?_⟩
    · simp only [createCompanies, h1.1]
      simp [netCall]
      omega
    · simp only [createCompanies, List.length_cons, h1.2]

/-- C2 (amended): `api_call` maps 200/201 to the parsed body, 409 to a
conflict marker rather than a logged error, and every other status to a
logged `None`; attribute creation treats the 409 marker as a successful
"already exists" no-op, but the record-creation paths test the response for
a `"data"` key, which the conflict dict lacks, so a 409 there is recorded as
a per-item failure; in every case the batch continues — one call per
attribute and one creation call per company are always issued. -/
theorem api_call_status_handling :
    (∀ b, attrOutcome (apiCall 409 b) = AttrOutcome.alreadyExists) ∧
    (∀ b, recordOutcome (apiCall 409 b) = RecOutcome.failedRec) ∧
    (∀ b, apiCall 200 b = ApiCallRet.body b ∧ apiCall 201 b = ApiCallRet.body b) ∧
    (∀ s b, s ≠ 200 → s ≠ 201 → s ≠ 409 → apiCall s b = ApiCallRet.failed) ∧
    (∀ net path attrs s,
      (postAttributes net path attrs s).evs.length = s.evs.length + attrs.length) ∧
    (∀ net cs s, (createCompanies net cs s).2.evs.length = s.evs.length + cs.length) := by
  refine ⟨by decide, by decide, by decide, ?_, postAttributes_evs_length,
    fun net cs s => (createCompanies_evs_length net cs s).1⟩
  intro s b h200 h201 h409
  simp only [apiCall]
  rw [if_neg, if_neg]
  · simpa using h409
  · simpa using ⟨h200, h201⟩

/-- Witness for C2 (amended) at concrete statuses: a 500 is a logged failure,
and a shrunk attribute batch of two entries always issues two calls. -/
theorem api_call_status_handling_witness :
    apiCall 500 true = ApiCallRet.failed ∧
    (postAttributes (fun _ => (500, false)) "/objects/companies/attributes"
      ["industry", "employee_count"] ⟨[], 0⟩).evs.length = 0 + 2 :=
  ⟨api_call_status_handling.2.2.2.1 500 true (by decide) (by decide) (by decide),
   api_call_status_handling.2.2.2.2.1 (fun _ => (500, false))
     "/objects/companies/attributes" ["industry", "employee_count"] ⟨[], 0⟩⟩

/-! ## CSV export (claim C5) -/

/-- `digitsLE` never returns the empty list. -/
theorem digitsLE_ne_nil : ∀ n, digitsLE n ≠ [] := by
  intro n
  rw [digitsLE]
  split <;> simp

/-- Every entry of `digitsLE` is a decimal digit. -/
theorem digitsLE_lt : ∀ n, ∀ d ∈ digitsLE n, d < 10 := by
  intro n
  induction n using Nat.strong_induction_on with
  | _ n ih =>
    intro d hd
    rw [digitsLE] at hd
    split at hd
    · simp at hd; omega
    · rename_i h
      simp only [List.mem_cons] at hd
      rcases hd with h' | h'
      · omega
      · exact ih (n / 10) (Nat.div_lt_self (by omega) (by omega)) d h'

/-- The digits of `n` evaluate back to `n`. -/
theorem foldr_digitsLE : ∀ n : Nat, (digitsLE n).foldr (fun d a => 10 * a + d) 0 = n := by
  intro n
  induction n using Nat.strong_induction_on with
  | _ n ih =>
    rw [digitsLE]
    split
    · simp
    · rename_i h
      simp only [List.foldr_cons]
      rw [ih (n / 10) (Nat.div_lt_self (by omega) (by omega))]
      omega

/-- For an actual digit, `digitChar` produces a digit character whose value
is the digit. -/
theorem digitChar_roundtrip :
    ∀ d, d < 10 → digitVal (digitChar d) = d ∧ isDigitCh (digitChar d) = true := by
  decide

/-- Folding the parse step over rendered digit characters equals folding over
the digits. -/
theorem foldl_map_digitChar :
    ∀ (ds : List Nat), (∀ d ∈ ds, d < 10) → ∀ acc : Nat,
      (ds.map digitChar).foldl (fun a c => 10 * a + digitVal c) acc =
        ds.foldl (fun a d => 10 * a + d) acc := by
  intro ds
  induction ds with
  | nil => intro _ acc; rfl
  | cons d ds' ih =>
    intro h acc
    simp only [List.map_cons, List.foldl_cons]
    rw [(digitChar_roundtrip d (h d (by simp))).1]
    exact ih (fun x hx => h x (by simp [hx])) _

/-- Python `str`/int round-trip: parsing the rendered numeral returns the
number. -/
theorem parseNat_natRepr : ∀ n, parseNat (natRepr n) = some n := by
  intro n
  have hlt : ∀ d ∈ (digitsLE n).reverse, d < 10 := by
    intro d hd
    exact digitsLE_lt n d (List.mem_reverse.mp hd)
  have hne : (digitsLE n).reverse.map digitChar ≠ [] := by
    simp [digitsLE_ne_nil n]
  have hall : ((digitsLE n).reverse.map digitChar).all isDigitCh = true := by
    rw [List.all_eq_true]
    intro c hc
    rcases List.mem_map.mp hc with ⟨d, hd, rfl⟩
    exact (digitChar_roundtrip d (hlt d hd)).2
  have htl : (natRepr n).toList = (digitsLE n).reverse.map digitChar := rfl
  rw [parseNat]
  simp only [htl]
  rw [if_pos]
  · congr 1
    rw [foldl_map_digitChar _ hlt 0, List.foldl_reverse]
    have := foldr_digitsLE n
    simpa using this
  · simp [hall, List.isEmpty_iff, hne]
    exact ⟨digitsLE_ne_nil n,
      fun a ha => (digitChar_roundtrip a (digitsLE_lt n a ha)).2⟩

/-- C5: the CSV export writes the header in the fixed column order
`scenario, toolkit, tokens, bytes, records, fields_per_record, file`
followed by exactly one row per `ScenarioResult`, in order and with no
drops; the written content is independent of whatever was previously at the
destination path (mode `"w"` truncates); and parsing any written row back
yields the original result exactly. -/
theorem csv_export_roundtrip :
    (∀ old results, writeCsvFile old results = csvHeader :: results.map csvRow) ∧
    (∀ results : List ScenarioResult, (writeCsv results).length = results.length + 1) ∧
    (∀ r, parseCsvRow (csvRow r) = some r) := by
  refine ⟨fun _ _ => rfl, fun results => by simp [writeCsv], ?_⟩
  intro r
  simp only [csvRow, parseCsvRow, parseNat_natRepr]

/-! ## Reporter failure policy (claim C7) -/

/-- C7: the reporter is fatal exactly in its stated precondition failures:
the exit code is non-zero precisely when the tokenizer import fails, both
candidate root directories are missing, or the scan finds no JSON file; a
missing tokenizer or missing root is diagnosed before any file is scanned;
and an empty result set exits before any table is printed or the CSV is
written. -/
theorem reporter_fatal_exactly :
    ∀ tk d1 d2 tok tree,
      ((reporterMain tk d1 d2 tok tree).2 ≠ 0 ↔
        (tk = false ∨ (d1 = false ∧ d2 = false) ∨ scanTree tok tree = [])) ∧
      ((tk = false ∨ (d1 = false ∧ d2 = false)) →
        ∀ p, RepEvent.scanFile p ∉ (reporterMain tk d1 d2 tok tree).1) ∧
      (scanTree tok tree = [] →
        RepEvent.printPerFileTable ∉ (reporterMain tk d1 d2 tok tree).1 ∧
        RepEvent.printComparison ∉ (reporterMain tk d1 d2 tok tree).1 ∧
        RepEvent.csvWrite ∉ (reporterMain tk d1 d2 tok tree).1) := by
  intro tk d1 d2 tok tree
  by_cases hres : scanTree tok tree = []
  · cases tk <;> cases d1 <;> cases d2 <;>
      simp [reporterMain, hres]
  · cases tk <;> cases d1 <;> cases d2 <;>
      simp [reporterMain, hres, List.isEmpty_iff]

/-- Witness for C7: with the tokenizer missing nothing is scanned and with an
empty tree no CSV is written, at concrete arguments. -/
theorem reporter_fatal_exactly_witness :
    RepEvent.scanFile "raw/arcade/scenario-a.json" ∉
      (reporterMain false true true (fun _ => 0) []).1 ∧
    RepEvent.csvWrite ∉ (reporterMain true true true (fun _ => 0) []).1 :=
  ⟨(reporter_fatal_exactly false true true (fun _ => 0) []).2.1 (Or.inl rfl)
      "raw/arcade/scenario-a.json",
   ((reporter_fatal_exactly true true true (fun _ => 0) []).2.2 rfl).2.2⟩

/-! ## Sorting infrastructure (the stable sort is a permutation and commutes
with key-preserving maps) -/

/-- Inserting an element permutes with simply consing it. -/
theorem insertSorted_perm {α : Type} (le : α → α → Bool) (x : α) :
    ∀ l : List α, List.Perm (insertSorted le x l) (x :: l) := by
  intro l
  induction l with
  | nil => exact List.Perm.refl _
  | cons y ys ih =>
    rw [insertSorted]
    split
    · exact List.Perm.refl _
    · exact (List.Perm.cons y ih).trans (List.Perm.swap x y ys)

/-- The modelled `sorted` is a permutation of its input. -/
theorem sortByKey_perm {α : Type} (le : α → α → Bool) :
    ∀ l : List α, List.Perm (sortByKey le l) l := by
  intro l
  induction l with
  | nil => exact List.Perm.refl _
  | cons x xs ih =>
    exact (insertSorted_perm le x (sortByKey le xs)).trans (List.Perm.cons x ih)

/-- Insertion commutes with a map that preserves the comparison. -/
theorem insertSorted_map {α : Type} (le : α → α → Bool) (f : α → α)
    (hf : ∀ a b, le (f a) (f b) = le a b) (x : α) :
    ∀ l, insertSorted le (f x) (l.map f) = (insertSorted le x l).map f := by
  intro l
  induction l with
  | nil => rfl
  | cons y ys ih =>
    by_cases h : le x y = true
    · simp [insertSorted, hf, h]
    · simp [insertSorted, hf, h, ih]

/-- The modelled `sorted` commutes with a map that preserves the
comparison. -/
theorem sortByKey_map {α : Type} (le : α → α → Bool) (f : α → α)
    (hf : ∀ a b, le (f a) (f b) = le a b) :
    ∀ l, sortByKey le (l.map f) = (sortByKey le l).map f := by
  intro l
  induction l with
  | nil => rfl
  | cons x xs ih =>
    simp only [List.map_cons, sortByKey, ih]
    exact insertSorted_map le f hf x (sortByKey le xs)

/-! ## Reserved directory and glob selection (claims C8, C10) -/

/-- `clearSchemas` keeps the entry name. -/
theorem clearSchemas_name (d : DirEntry) : (clearSchemas d).name = d.name := by
  rw [clearSchemas]; split <;> rfl

/-- The rows of a directory entry do not change when a `schemas` entry's
files are emptied. -/
theorem dirRows_clearSchemas (tok : String → Nat) (d : DirEntry) :
    dirRows tok (clearSchemas d) = dirRows tok d := by
  by_cases h : d.name == "schemas"
  · have hn : d.name = "schemas" := by simpa using h
    simp [clearSchemas, h, dirRows, hn]
  · simp [clearSchemas, h]

/-- C8: the reserved `schemas` subdirectory is never treated as a toolkit:
no scanned row carries the toolkit label `schemas`, and the scan result is
unchanged whatever files the `schemas` entry contains (emptying them changes
nothing), so it contributes zero rows to the tables and the CSV. -/
theorem schemas_never_toolkit :
    ∀ tok t,
      (scanTree tok t).all (fun r => r.toolkit != "schemas") = true ∧
      scanTree tok (t.map clearSchemas) = scanTree tok t := by
  intro tok t
  constructor
  · rw [List.all_eq_true]
    intro r hr
    simp only [scanTree, List.mem_flatten, List.mem_map] at hr
    rcases hr with ⟨rows, ⟨d, _hd, rfl⟩, hrd⟩
    rw [dirRows] at hrd
    by_cases hc : (d.isDir && d.name != "schemas") = true
    · rw [if_pos hc] at hrd
      rcases List.mem_map.mp hrd with ⟨f, _hf, rfl⟩
      have hname := (Bool.and_eq_true _ _).mp hc |>.2
      simpa [fileRow] using hname
    · rw [if_neg hc] at hrd
      exact absurd hrd (List.not_mem_nil r)
  · simp only [scanTree]
    rw [sortByKey_map dirLe clearSchemas
      (fun a b => by simp [dirLe, clearSchemas_name])]
    simp [List.map_map, Function.comp_def, dirRows_clearSchemas]

/-- The rows of a directory entry do not change when its non-`.json` files
are removed (the glob filter is idempotent). -/
theorem dirRows_dropNonJson (tok : String → Nat) (d : DirEntry) :
    dirRows tok (dropNonJsonFiles d) = dirRows tok d := by
  simp [dirRows, dropNonJsonFiles, List.filter_filter]

/-- A prefix stays a prefix after extending the list on the right. -/
theorem isPrefixChars_append (p : List Char) :
    ∀ l m, isPrefixChars p l = true → isPrefixChars p (l ++ m) = true := by
  induction p with
  | nil => intro l m _; rfl
  | cons c cs ih =>
    intro l m h
    cases l with
    | nil => simp [isPrefixChars] at h
    | cons b bs =>
      rw [isPrefixChars] at h
      rcases (Bool.and_eq_true _ _).mp h with ⟨hcb, hrest⟩
      simp only [List.cons_append, isPrefixChars, hcb, Bool.true_and]
      exact ih bs m hrest

/-- A suffix of `b` is a suffix of `a ++ b`. -/
theorem endsWithStr_append (a b suffix : String)
    (h : endsWithStr b suffix = true) : endsWithStr (a ++ b) suffix = true := by
  unfold endsWithStr endsWithChars at *
  have hdata : (a ++ b).toList = a.toList ++ b.toList := by
    show (a ++ b).data = a.data ++ b.data
    exact String.data_append a b
  rw [hdata, List.reverse_append]
  exact isPrefixChars_append _ _ _ h

/-- C10: only files whose names end in `.json` are ever scanned: every
produced row records a `raw/<toolkit>/<name>.json` path ending in `.json`,
and deleting every non-`.json` file from the tree leaves the scan result
unchanged — such files contribute no row to any table or to the CSV. -/
theorem only_json_files_scanned :
    ∀ tok t,
      (scanTree tok t).all (fun r => endsWithStr r.file ".json") = true ∧
      scanTree tok (t.map dropNonJsonFiles) = scanTree tok t := by
  intro tok t
  constructor
  · rw [List.all_eq_true]
    intro r hr
    simp only [scanTree, List.mem_flatten, List.mem_map] at hr
    rcases hr with ⟨rows, ⟨d, _hd, rfl⟩, hrd⟩
    rw [dirRows] at hrd
    by_cases hc : (d.isDir && d.name != "schemas") = true
    · rw [if_pos hc] at hrd
      rcases List.mem_map.mp hrd with ⟨f, hf, rfl⟩
      have hjson : jsonNamed f = true := by
        have hmem := (sortByKey_perm fileLe _ ).mem_iff.mp hf
        exact (List.mem_filter.mp hmem).2
      show endsWithStr ("raw/" ++ d.name ++ "/" ++ f.name) ".json" = true
      exact endsWithStr_append ("raw/" ++ d.name ++ "/") f.name ".json" hjson
    · rw [if_neg hc] at hrd
      exact absurd hrd (List.not_mem_nil r)
  · simp only [scanTree]
    rw [sortByKey_map dirLe dropNonJsonFiles (fun a b => rfl)]
    simp [List.map_map, Function.comp_def, dirRows_dropNonJson]

/-! ## Comparison ratio (claim C4) -/

/-- The length of a `filterMap` is the number of elements on which the
function fires. -/
theorem length_filterMap_eq_filter {α β : Type} (f : α → Option β) :
    ∀ l : List α, (l.filterMap f).length = (l.filter (fun x => (f x).isSome)).length := by
  intro l
  induction l with
  | nil => rfl
  | cons x xs ih =>
    cases h : f x <;> simp [List.filterMap_cons, List.filter_cons, h, ih]

/-- The `token_counts` entry for a toolkit is present exactly when the
toolkit has a matching row. -/
theorem tokenCounts_entry_isSome (results : List ScenarioResult) (s t : String) :
    ((match matchesFor results s t with
      | [] => (none : Option (String × Nat))
      | m :: _ => some (t, m.tokens)).isSome = true) ↔
      matchesFor results s t ≠ [] := by
  cases h : matchesFor results s t <;> simp [h]

/-- Membership in the sorted toolkit list is membership among the results'
toolkits. -/
theorem mem_sortedToolkits (results : List ScenarioResult) (t : String) :
    t ∈ sortedToolkits results ↔ ∃ r ∈ results, r.toolkit = t := by
  rw [sortedToolkits]
  rw [(sortByKey_perm nameLe _).mem_iff, List.mem_dedup, List.mem_map]

/-- A toolkit has a matching row for a scenario exactly when some result
carries that scenario and toolkit. -/
theorem matchesFor_ne_nil (results : List ScenarioResult) (s t : String) :
    matchesFor results s t ≠ [] ↔
      ∃ r ∈ results, r.scenario = s ∧ r.toolkit = t := by
  rw [Ne, matchesFor, List.filter_eq_nil_iff]
  push_neg
  simp

/-- Membership in the reporting-toolkit list. -/
theorem mem_reportingToolkits (results : List ScenarioResult) (s t : String) :
    t ∈ reportingToolkits results s ↔
      ∃ r ∈ results, r.scenario = s ∧ r.toolkit = t := by
  rw [reportingToolkits, List.mem_dedup, List.mem_map]
  constructor
  · rintro ⟨r, hr, rfl⟩
    have := List.mem_filter.mp hr
    exact ⟨r, this.1, by simpa using this.2, rfl⟩
  · rintro ⟨r, hr, hs, rfl⟩
    exact ⟨r, List.mem_filter.mpr ⟨hr, by simpa using hs⟩, rfl⟩

/-- The sorted toolkit list has no duplicates. -/
theorem sortedToolkits_nodup (results : List ScenarioResult) :
    (sortedToolkits results).Nodup :=
  (sortByKey_perm nameLe _).nodup_iff.mpr (List.nodup_dedup _)

/-- The number of `token_counts` entries is the number of distinct toolkits
reporting the scenario. -/
theorem tokenCounts_length (results : List ScenarioResult) (s : String) :
    (tokenCounts results s).length = (reportingToolkits results s).length := by
  rw [tokenCounts, length_filterMap_eq_filter]
  apply List.Perm.length_eq
  apply (List.perm_ext_iff_of_nodup
    (List.Nodup.filter _ (sortedToolkits_nodup results)) (List.nodup_dedup _)).mpr
  intro t
  rw [List.mem_filter]
  show t ∈ sortedToolkits results ∧
      ((match matchesFor results s t with
        | [] => (none : Option (String × Nat))
        | m :: _ => some (t, m.tokens)).isSome = true) ↔
      t ∈ reportingToolkits results s
  rw [tokenCounts_entry_isSome, mem_sortedToolkits, matchesFor_ne_nil,
    mem_reportingToolkits]
  constructor
  · exact fun h => h.2
  · rintro ⟨r, hr, hs, ht⟩
    exact ⟨⟨r, hr, ht⟩, ⟨r, hr, hs, ht⟩⟩

/-- The first component of the min/max fold is the fold of `min`. -/
theorem minMax_foldl_fst :
    ∀ (rest : List (String × Nat)) (a b : Nat),
      (rest.foldl (fun mm q => (min mm.1 q.2, max mm.2 q.2)) (a, b)).1 =
        rest.foldl (fun m q => min m q.2) a := by
  intro rest
  induction rest with
  | nil => intro a b; rfl
  | cons q qs ih => intro a b; simp [List.foldl_cons, ih]

/-- The running minimum is positive exactly when the seed and every entry
are. -/
theorem foldl_min_pos :
    ∀ (rest : List (String × Nat)) (a : Nat),
      (0 < rest.foldl (fun m q => min m q.2) a ↔
        (0 < a ∧ ∀ q ∈ rest, 0 < q.2)) := by
  intro rest
  induction rest with
  | nil => intro a; simp
  | cons q qs ih =>
    intro a
    rw [List.foldl_cons, ih]
    simp only [Nat.lt_min, List.forall_mem_cons]
    tauto

/-- The ratio cell is filled exactly when at least two toolkits report the
scenario and every reported count (hence the minimum) is positive. -/
theorem ratioCell_isSome_iff (results : List ScenarioResult) (s : String) :
    (ratioCell results s).isSome = true ↔
      (2 ≤ (reportingToolkits results s).length ∧
        ∀ q ∈ tokenCounts results s, 0 < q.2) := by
  rw [ratioCell, ← tokenCounts_length]
  cases htc : tokenCounts results s with
  | nil => simp
  | cons p rest =>
    by_cases h2 : 2 ≤ (p :: rest).length
    · rw [if_pos h2]
      have hmm : minMaxTokens (p :: rest) =
          some (rest.foldl (fun mm q => (min mm.1 q.2, max mm.2 q.2)) (p.2, p.2)) := rfl
      rw [hmm]
      generalize hfold :
        rest.foldl (fun mm q => (min mm.1 q.2, max mm.2 q.2)) (p.2, p.2) = mm
      obtain ⟨mn, mx⟩ := mm
      have hmn : mn = rest.foldl (fun m q => min m q.2) p.2 := by
        rw [← minMax_foldl_fst rest p.2 p.2, hfold]
      show (if 0 < mn then some ((mx : ℚ) / (mn : ℚ)) else none).isSome = true ↔
        2 ≤ (p :: rest).length ∧ ∀ q ∈ p :: rest, 0 < q.2
      by_cases hpos : 0 < mn
      · rw [if_pos hpos]
        simp only [Option.isSome_some, true_iff]
        refine ⟨h2, ?_⟩
        rw [hmn] at hpos
        have := (foldl_min_pos rest p.2).mp hpos
        exact List.forall_mem_cons.mpr this
      · rw [if_neg hpos]
        simp only [Option.isSome_none, Bool.false_eq_true, false_iff, not_and]
        intro _ hall
        rw [List.forall_mem_cons] at hall
        exact absurd (hmn ▸ (foldl_min_pos rest p.2).mpr hall) hpos
    · rw [if_neg h2]
      simp only [Option.isSome_none, Bool.false_eq_true, false_iff]
      exact fun h => h2 h.1

/-- C4: the comparison table's max/min ratio is shown for a scenario exactly
when at least two distinct toolkits report it and the minimum token count is
positive, and it then equals `max/min` over the reported counts; counts
`{arcade: 100, composio: 400}` give exactly 4.0, a scenario reported by a
single toolkit omits the ratio, and a zero minimum omits the ratio. -/
theorem ratio_shown_iff :
    ∀ results s,
      ((ratioCell results s).isSome = true ↔
        (2 ≤ (reportingToolkits results s).length ∧
          ∀ q ∈ tokenCounts results s, 0 < q.2)) ∧
      (∀ mn mx, 2 ≤ (tokenCounts results s).length →
        minMaxTokens (tokenCounts results s) = some (mn, mx) → 0 < mn →
        ratioCell results s = some ((mx : ℚ) / (mn : ℚ))) ∧
      ratioCell exPairResults "scenario-a" = some 4 ∧
      ratioCell [exSingleResult] "scenario-a" = none ∧
      ratioCell exZeroResults "scenario-a" = none := by
  intro results s
  have hex1 : ratioCell exPairResults "scenario-a" = some 4 := by
    have htc : tokenCounts exPairResults "scenario-a" =
        [("arcade", 100), ("composio", 400)] := by decide
    rw [ratioCell, htc]
    norm_num [minMaxTokens]
  refine ⟨ratioCell_isSome_iff results s, ?_, hex1, by decide, by decide⟩
  intro mn mx h2 hmm hpos
  rw [ratioCell, if_pos h2, hmm]
  show (if 0 < mn then some ((mx : ℚ) / (mn : ℚ)) else none) =
    some ((mx : ℚ) / (mn : ℚ))
  rw [if_pos hpos]

/-- Witness for C4: on the two-toolkit example the hypotheses hold with
minimum 100 and maximum 400, and the ratio is 400/100. -/
theorem ratio_shown_iff_witness :
    ratioCell exPairResults "scenario-a" = some ((400 : ℚ) / (100 : ℚ)) :=
  (ratio_shown_iff exPairResults "scenario-a").2.1 100 400
    (by decide) (by decide) (by decide)
